import Mathlib

/-!
Shallow embedding of the cardiac rhythm component-tracking and heart-block
classification engine (the `CardiacComponentTracker`, `HeartBlockDetector`
and `MorphologyValidator` classes of the EKG analysis service).

Numbers are modelled as exact rationals (`ℚ`); JavaScript `Math.round` is
`jsRound` (floor of x + 1/2, which is what `Math.round` computes);
JavaScript `||`-defaulting of optional numeric fields treats a present `0`
as missing (falsy), which `jsOrQ` reproduces.  Division by zero follows the
Lean convention `x / 0 = 0`; the only place where JavaScript would produce
`NaN` instead (the empty-input ratio in `checkAVDissociation`, where
`NaN < 0.7` is `false`) is made explicit by a guard on the empty case.
-/

namespace EKG

/-- A detected wave event, as consumed by the engine.  The source passes
duck-typed objects around; the fields read anywhere in the three classes are
`time`, `amplitude`, `duration`, `onset_slope`, `peak_sharpness` and `type`.
Optional numeric fields that the source defaults with `||` are `Option ℚ`. -/
structure WaveEvent where
  time : ℚ
  amplitude : ℚ
  duration : Option ℚ
  onset_slope : Option ℚ
  peak_sharpness : Option ℚ
  type : String
deriving DecidableEq, Repr

/-- A default event, used only as the out-of-range placeholder of `List.getD`. -/
def wdef : WaveEvent := ⟨0, 0, none, none, none, ""⟩

/-- Shorthand for a bare timed event (the detector reads only `.time`). -/
def evt (t : ℚ) : WaveEvent := ⟨t, 0, none, none, none, ""⟩

/-- JavaScript `Math.round`: floor of `x + 0.5`. -/
def jsRound (x : ℚ) : ℤ := ⌊x + 1/2⌋

/-- JavaScript `v || d` for an optional numeric field: the default applies
when the field is absent or `0` (both falsy). -/
def jsOrQ (v : Option ℚ) (d : ℚ) : ℚ :=
  match v with
  | none => d
  | some x => if x = 0 then d else x

/-- The consecutive inter-event intervals `events[i].time - events[i-1].time`,
in the order the list is given (the source never sorts). -/
def intervalsOf (events : List WaveEvent) : List ℚ :=
  (events.zip events.tail).map (fun p => p.2.time - p.1.time)

/-- `intervals.reduce((a, b) => a + b, 0) / intervals.length`. -/
def meanQ (l : List ℚ) : ℚ := l.sum / (l.length : ℚ)

/-- `intervals.reduce((sum, i) => sum + (i - avg)^2, 0) / intervals.length`. -/
def listVariance (intervals : List ℚ) (avgInterval : ℚ) : ℚ :=
  (intervals.map (fun i => (i - avgInterval) ^ 2)).sum / (intervals.length : ℚ)

/-- Mean consecutive interval of a series (helper naming the composite the
source recomputes inline in each method). -/
def meanIntervalOf (events : List WaveEvent) : ℚ := meanQ (intervalsOf events)

/-- Variance of the consecutive intervals of a series about their mean. -/
def varOf (events : List WaveEvent) : ℚ :=
  listVariance (intervalsOf events) (meanIntervalOf events)

namespace CardiacComponentTracker

/-- `CardiacComponentTracker.calculateAtrialRate`: below two events the rate
is `0`; otherwise `Math.round(60000 / avgInterval)` over the consecutive
P-P intervals. -/
def calculateAtrialRate (pWaves : List WaveEvent) : ℤ :=
  if pWaves.length < 2 then 0
  else jsRound (60000 / meanIntervalOf pWaves)

/-- `CardiacComponentTracker.assessPWaveRegularity`: fewer than three events
is `"irregular"`; otherwise `"regular"` iff the interval variance is below
`avgInterval * 0.1`. -/
def assessPWaveRegularity (pWaves : List WaveEvent) : String :=
  if pWaves.length < 3 then "irregular"
  else if varOf pWaves < meanIntervalOf pWaves * (1/10) then "regular"
  else "irregular"

end CardiacComponentTracker

namespace HeartBlockDetector

/-- Result record of the detector (`BlockDetection` in the source). -/
structure BlockDetection where
  type : String
  confidence : ℚ
  urgency : String
  evidence : List String
  action : String
deriving DecidableEq, Repr

/-- `HeartBlockDetector.calculateRate` (same body as `calculateAtrialRate`). -/
def calculateRate (complexes : List WaveEvent) : ℤ :=
  if complexes.length < 2 then 0
  else jsRound (60000 / meanIntervalOf complexes)

/-- The per-pair test of `checkAVDissociation`: the PR interval
`qrs.time - p.time` is counted consistent when `120 < PR && PR < 300`. -/
def prConsistent (pq : WaveEvent × WaveEvent) : Bool :=
  decide (120 < pq.2.time - pq.1.time ∧ pq.2.time - pq.1.time < 300)

/-- The ratio `consistentRelationships / min(len(P), len(QRS))` that
`checkAVDissociation` compares against `0.7`.  The loop pairs the i-th P
event with the i-th QRS event for `i < min` of the lengths, which is `zip`. -/
def avConsistencyRatio (pWaves qrsComplexes : List WaveEvent) : ℚ :=
  (((pWaves.zip qrsComplexes).countP prConsistent : ℚ)) /
    ((min pWaves.length qrsComplexes.length : ℕ) : ℚ)

/-- `HeartBlockDetector.checkAVDissociation`: true when fewer than 70% of the
index-paired PR intervals are consistent.  When both series are empty the
source computes `0 / 0 = NaN` and `NaN < 0.7` is `false`, hence the explicit
guard. -/
def checkAVDissociation (pWaves qrsComplexes : List WaveEvent) : Bool :=
  if min pWaves.length qrsComplexes.length = 0 then false
  else decide (avConsistencyRatio pWaves qrsComplexes < 7/10)

/-- `HeartBlockDetector.assessRhythmRegularity`: fewer than three events is
`false`; otherwise true iff the interval variance is below
`avgInterval * 0.15`. -/
def assessRhythmRegularity (complexes : List WaveEvent) : Bool :=
  if complexes.length < 3 then false
  else decide (varOf complexes < meanIntervalOf complexes * (15/100))

/-- `HeartBlockDetector.assessIndependentRhythms`: both series regular. -/
def assessIndependentRhythms (pWaves qrsComplexes : List WaveEvent) : Bool :=
  assessRhythmRegularity pWaves && assessRhythmRegularity qrsComplexes

/-- `HeartBlockDetector.checkPartialBlocks`. -/
def checkPartialBlocks (pWaves qrsComplexes : List WaveEvent) : BlockDetection :=
  let atrialRate := calculateRate pWaves
  let ventricularRate := calculateRate qrsComplexes
  let rateDifference := |atrialRate - ventricularRate|
  if 10 < rateDifference then
    { type := "SECOND_DEGREE_BLOCK"
      confidence := 8/10
      urgency := "URGENT"
      evidence := ["Rate difference: " ++ toString rateDifference ++ " bpm suggests AV block"]
      action := "CARDIOLOGY EVALUATION RECOMMENDED" }
  else
    { type := "NO_BLOCK"
      confidence := 9/10
      urgency := "ROUTINE"
      evidence := ["Normal AV conduction pattern"]
      action := "ROUTINE FOLLOW-UP" }

/-- `HeartBlockDetector.detectCompleteHeartBlock`. -/
def detectCompleteHeartBlock (pWaves qrsComplexes : List WaveEvent) : BlockDetection :=
  let atrialRate := calculateRate pWaves
  let ventricularRate := calculateRate qrsComplexes
  let rateDifference := |atrialRate - ventricularRate|
  let dissociation := checkAVDissociation pWaves qrsComplexes
  let independentRhythms := assessIndependentRhythms pWaves qrsComplexes
  if 20 < rateDifference ∧ dissociation ∧ independentRhythms then
    { type := "COMPLETE_HEART_BLOCK"
      confidence := 95/100
      urgency := "EMERGENT"
      evidence :=
        ["Atrial rate: " ++ toString atrialRate ++ " bpm (P waves)",
         "Ventricular rate: " ++ toString ventricularRate ++ " bpm (QRS)",
         "No consistent P-QRS relationship",
         "P waves march independently of QRS"]
      action := "IMMEDIATE CARDIOLOGY CONSULTATION" }
  else checkPartialBlocks pWaves qrsComplexes

end HeartBlockDetector

namespace MorphologyValidator

/-- `MorphologyValidator.hasSharpOnset`:
`(component.onset_slope || 0.6) > 0.5 && (component.duration || 90) < 120`. -/
def hasSharpOnset (component : WaveEvent) : Bool :=
  decide (jsOrQ component.onset_slope (6/10) > 1/2 ∧ jsOrQ component.duration 90 < 120)

/-- `MorphologyValidator.isRoundedMorphology`:
`(component.peak_sharpness || 0.4) < 0.3 && (component.duration || 160) > 150`. -/
def isRoundedMorphology (component : WaveEvent) : Bool :=
  decide (jsOrQ component.peak_sharpness (4/10) < 3/10 ∧ jsOrQ component.duration 160 > 150)

/-- Entry of the `corrections` list of `validateQRSvsTWave`. -/
structure Correction where
  component : WaveEvent
  suggestion : String
  reason : String
deriving DecidableEq, Repr

/-- Result of `validateQRSvsTWave`. -/
structure ValidationResult where
  isValid : Bool
  issues : List String
  corrections : List Correction
  confidence : ℚ
deriving DecidableEq, Repr

/-- The issues the loop body of `validateQRSvsTWave` pushes for one
component: QRS-labelled events failing `hasSharpOnset` and QRS-labelled
events with rounded morphology. -/
def componentIssues (component : WaveEvent) : List String :=
  if component.type = "QRS" then
    (if !hasSharpOnset component then
      ["Component at " ++ toString component.time ++ "ms may be T wave, not QRS"]
    else []) ++
    (if isRoundedMorphology component then
      ["Component at " ++ toString component.time ++ "ms has rounded morphology typical of T wave"]
    else [])
  else []

/-- The corrections the loop body of `validateQRSvsTWave` pushes for one
component: a reclassify-as-T-wave suggestion for each QRS-labelled event
failing `hasSharpOnset`. -/
def componentCorrections (component : WaveEvent) : List Correction :=
  if component.type = "QRS" ∧ !hasSharpOnset component then
    [{ component := component
       suggestion := "Reclassify as T wave"
       reason := "Gradual onset, not sharp QRS pattern" }]
  else []

/-- Per-component score of `calculateMorphologyConfidence`: `0.9` when the
label is internally consistent with the morphology, else `0.6`. -/
def componentScore (component : WaveEvent) : ℚ :=
  if component.type = "QRS" ∧ hasSharpOnset component then 9/10
  else if component.type = "T" ∧ isRoundedMorphology component then 9/10
  else 6/10

/-- `MorphologyValidator.calculateMorphologyConfidence`: `0.5` on an empty
list, otherwise the mean of the per-component scores. -/
def calculateMorphologyConfidence (components : List WaveEvent) : ℚ :=
  if components.length = 0 then 1/2
  else (components.map componentScore).sum / (components.length : ℚ)

/-- `MorphologyValidator.validateQRSvsTWave`. -/
def validateQRSvsTWave (components : List WaveEvent) : ValidationResult :=
  let issues := components.flatMap componentIssues
  let corrections := components.flatMap componentCorrections
  { isValid := issues.isEmpty
    issues := issues
    corrections := corrections
    confidence := calculateMorphologyConfidence components }

/-- Modelled from the spec: the spec writes `hasSharpOnset(e)` as
`(e.onsetSlope ?? 0.6) > 0.5 AND (e.durationMs ?? 90) < 120`, a nullish
(`??`) default that keeps a present `0`; declared only to compare the spec's
formula with the source's `||`-defaulting `hasSharpOnset`. -/
def specHasSharpOnset (component : WaveEvent) : Bool :=
  decide (component.onset_slope.getD (6/10) > 1/2 ∧ component.duration.getD 90 < 120)

end MorphologyValidator

/-- The consistent-pair count written the way the specification describes it:
for each index `i` below `min(len(P), len(QRS))`, pair the i-th P event with
the i-th QRS event and count the pair when `120 < QRS[i].time - P[i].time < 300`. -/
def specConsistentCount (pWaves qrsComplexes : List WaveEvent) : ℕ :=
  (List.range (min pWaves.length qrsComplexes.length)).countP (fun i =>
    decide (120 < (qrsComplexes.getD i wdef).time - (pWaves.getD i wdef).time ∧
            (qrsComplexes.getD i wdef).time - (pWaves.getD i wdef).time < 300))

/-- Rank of an urgency string in the order ROUTINE < URGENT < EMERGENT. -/
def urgencyRank (u : String) : ℕ :=
  if u = "EMERGENT" then 2 else if u = "URGENT" then 1 else 0

/-- Scenario B atrial series: P events evenly spaced at 857 ms (70 bpm). -/
def pScenarioB : List WaveEvent := [evt 0, evt 857, evt 1714, evt 2571]

/-- Scenario B ventricular series: QRS events evenly spaced at 1500 ms (40 bpm). -/
def qScenarioB : List WaveEvent := [evt 0, evt 1500, evt 3000]

/-- A dissociated pair with equal rates (every index-paired PR interval is
500 ms, outside (120, 300)): both series regular at 60 bpm. -/
def pEqualRates : List WaveEvent := [evt 0, evt 1000, evt 2000, evt 3000]

/-- See `pEqualRates`. -/
def qEqualRates : List WaveEvent := [evt 500, evt 1500, evt 2500, evt 3500]

/-- A length-two series with a single 800 ms interval (zero variance). -/
def pTwoEvents : List WaveEvent := [evt 0, evt 800]

/-- A length-three evenly spaced series (75 bpm, zero variance). -/
def pThreeEvents : List WaveEvent := [evt 0, evt 800, evt 1600]

/-- Three events in non-chronological order. -/
def pUnsorted : List WaveEvent := [evt 0, evt 1000, evt 500]

/-- The same three events in chronological order. -/
def pSorted : List WaveEvent := [evt 0, evt 500, evt 1000]

/-- A QRS-labelled event with a present-but-zero onset slope and a 90 ms
duration: falsy (`||`) defaulting replaces the `0` slope by `0.6`, nullish
(`??`) defaulting keeps it. -/
def qrsZeroSlope : WaveEvent :=
  { time := 100, amplitude := 1, duration := some 90
    onset_slope := some 0, peak_sharpness := none, type := "QRS" }

/-- Scenario C component: QRS-labelled with `duration = 180`,
`onset_slope = 0.2`, `peak_sharpness = 0.1`. -/
def qrsScenarioC : WaveEvent :=
  { time := 100, amplitude := 1, duration := some 180
    onset_slope := some (2/10), peak_sharpness := some (1/10), type := "QRS" }

end EKG

namespace EKG

open HeartBlockDetector MorphologyValidator

/-- Helper: the condition of `detectCompleteHeartBlock`, with both boolean
signals known true, reduces to the rate-difference test. -/
theorem detect_urgency_eq (p q : List WaveEvent)
    (hd : checkAVDissociation p q = true)
    (hi : assessIndependentRhythms p q = true) :
    (detectCompleteHeartBlock p q).urgency =
      (if 20 < |calculateRate p - calculateRate q| then "EMERGENT"
       else if 10 < |calculateRate p - calculateRate q| then "URGENT"
       else "ROUTINE") := by
  simp only [detectCompleteHeartBlock, checkPartialBlocks, hd, hi]
  split_ifs <;> simp_all

/-- Claim C1: whenever the absolute difference of the two computed rates
exceeds 20 bpm, the AV-consistency check reports dissociation, and both
series pass the independent-rhythm (15% variance) regularity test, the
detector classifies COMPLETE_HEART_BLOCK with urgency EMERGENT and
confidence 0.95. -/
theorem C1_complete_heart_block_rule (p q : List WaveEvent)
    (h1 : 20 < |calculateRate p - calculateRate q|)
    (h2 : checkAVDissociation p q = true)
    (h3 : assessIndependentRhythms p q = true) :
    (detectCompleteHeartBlock p q).type = "COMPLETE_HEART_BLOCK" ∧
    (detectCompleteHeartBlock p q).urgency = "EMERGENT" ∧
    (detectCompleteHeartBlock p q).confidence = 95/100 := by
  simp only [detectCompleteHeartBlock, h2, h3]
  rw [if_pos ⟨h1, trivial, trivial⟩]
  exact ⟨rfl, rfl, rfl⟩

/-- Claim C1 witness: the Scenario B inputs (P every 857 ms, QRS every
1500 ms, all index-paired PR intervals outside (120, 300)) satisfy the three
hypotheses and are classified COMPLETE_HEART_BLOCK / EMERGENT / 0.95. -/
theorem C1_witness :
    (detectCompleteHeartBlock pScenarioB qScenarioB).type = "COMPLETE_HEART_BLOCK" ∧
    (detectCompleteHeartBlock pScenarioB qScenarioB).urgency = "EMERGENT" ∧
    (detectCompleteHeartBlock pScenarioB qScenarioB).confidence = 95/100 :=
  C1_complete_heart_block_rule pScenarioB qScenarioB
    (by norm_num [calculateRate, meanIntervalOf, meanQ, intervalsOf, jsRound,
      pScenarioB, qScenarioB, evt])
    (by norm_num [checkAVDissociation, avConsistencyRatio, prConsistent,
      pScenarioB, qScenarioB, evt, List.countP_cons, List.countP_nil])
    (by norm_num [assessIndependentRhythms, assessRhythmRegularity, varOf,
      meanIntervalOf, meanQ, listVariance, intervalsOf, pScenarioB, qScenarioB, evt])


/-- Claim C3 counterexample: on empty P and QRS series the detector does not
return the claimed insufficient-data result (classification NORMAL,
confidence 0.5, evidence containing "insufficient data"). -/
theorem C3_counterexample :
    ¬ ((detectCompleteHeartBlock [] []).type = "NORMAL" ∧
       (detectCompleteHeartBlock [] []).confidence = 1/2 ∧
       "insufficient data" ∈ (detectCompleteHeartBlock [] []).evidence) := by
  norm_num [detectCompleteHeartBlock, checkPartialBlocks, checkAVDissociation,
    assessIndependentRhythms, assessRhythmRegularity, calculateRate]

/-- Claim C3 amended: when both series are empty the detector falls through
to `checkPartialBlocks` and returns the ordinary no-block result: type
NO_BLOCK, confidence 0.9, urgency ROUTINE, evidence
["Normal AV conduction pattern"]; no insufficient-data branch exists. -/
theorem C3_amended :
    (detectCompleteHeartBlock [] []).type = "NO_BLOCK" ∧
    (detectCompleteHeartBlock [] []).confidence = 9/10 ∧
    (detectCompleteHeartBlock [] []).urgency = "ROUTINE" ∧
    (detectCompleteHeartBlock [] []).evidence = ["Normal AV conduction pattern"] := by
  norm_num [detectCompleteHeartBlock, checkPartialBlocks, checkAVDissociation,
    assessIndependentRhythms, assessRhythmRegularity, calculateRate]

/-- Claim C6: for every input, the detection returned by
`detectCompleteHeartBlock` satisfies: classification COMPLETE_HEART_BLOCK
implies urgency EMERGENT, and the evidence list is non-empty. -/
theorem C6_invariant (p q : List WaveEvent) :
    ((detectCompleteHeartBlock p q).type = "COMPLETE_HEART_BLOCK" →
      (detectCompleteHeartBlock p q).urgency = "EMERGENT") ∧
    (detectCompleteHeartBlock p q).evidence ≠ [] := by
  simp only [detectCompleteHeartBlock, checkPartialBlocks]
  split_ifs <;> simp

/-- Claim C6 witness: the invariant instantiated at the Scenario B input,
where the classification is COMPLETE_HEART_BLOCK. -/
theorem C6_witness :
    ((detectCompleteHeartBlock pScenarioB qScenarioB).type = "COMPLETE_HEART_BLOCK" →
      (detectCompleteHeartBlock pScenarioB qScenarioB).urgency = "EMERGENT") ∧
    (detectCompleteHeartBlock pScenarioB qScenarioB).evidence ≠ [] :=
  C6_invariant pScenarioB qScenarioB

/-- Claim C9: when either series has fewer than three events the
independent-rhythm check fails, so the detector can never classify
COMPLETE_HEART_BLOCK. -/
theorem C9_sparse_never_chb (p q : List WaveEvent)
    (h : p.length < 3 ∨ q.length < 3) :
    (detectCompleteHeartBlock p q).type ≠ "COMPLETE_HEART_BLOCK" := by
  have hreg : assessIndependentRhythms p q = false := by
    rcases h with h | h <;>
      simp [assessIndependentRhythms, assessRhythmRegularity, if_pos h]
  simp only [detectCompleteHeartBlock, checkPartialBlocks, hreg]
  split_ifs <;> simp_all

/-- Claim C9 witness: an empty P series together with a four-event regular
QRS series is not classified COMPLETE_HEART_BLOCK. -/
theorem C9_witness :
    (detectCompleteHeartBlock [] qEqualRates).type ≠ "COMPLETE_HEART_BLOCK" :=
  C9_sparse_never_chb [] qEqualRates (Or.inl (by simp))


/-- Claim C4 counterexample: a series of exactly two events has a single
interval, hence zero variance, so the claim (REGULAR iff variance below
0.1 times the mean interval, for every series of length at least 2) demands
REGULAR; the source classifies every series shorter than three events as
irregular. -/
theorem C4_counterexample :
    pTwoEvents.length = 2 ∧
    varOf pTwoEvents < meanIntervalOf pTwoEvents * (1/10) ∧
    CardiacComponentTracker.assessPWaveRegularity pTwoEvents = "irregular" := by
  norm_num [pTwoEvents, evt, varOf, meanIntervalOf, meanQ, listVariance,
    intervalsOf, CardiacComponentTracker.assessPWaveRegularity]

/-- Claim C4 amended: a series shorter than two events yields rate 0, a
series shorter than three events is always IRREGULAR (the cutoff is 3, not
the claimed 2), and for three or more events the series is REGULAR exactly
when the interval variance is below 0.1 times the mean interval. -/
theorem C4_amended (l : List WaveEvent) :
    (l.length < 2 → CardiacComponentTracker.calculateAtrialRate l = 0) ∧
    (l.length < 3 → CardiacComponentTracker.assessPWaveRegularity l = "irregular") ∧
    (3 ≤ l.length →
      (CardiacComponentTracker.assessPWaveRegularity l = "regular" ↔
        varOf l < meanIntervalOf l * (1/10))) := by
  refine ⟨fun h => by simp [CardiacComponentTracker.calculateAtrialRate, h],
          fun h => by simp [CardiacComponentTracker.assessPWaveRegularity, h],
          fun h => ?_⟩
  unfold CardiacComponentTracker.assessPWaveRegularity
  rw [if_neg (by omega)]
  split_ifs with hv
  · exact iff_of_true rfl hv
  · exact iff_of_false (by simp) hv

/-- Claim C4 amended witness: at the three-event evenly spaced series the
regularity verdict is equivalent to the variance test (and indeed regular). -/
theorem C4_witness :
    (CardiacComponentTracker.assessPWaveRegularity pThreeEvents = "regular" ↔
      varOf pThreeEvents < meanIntervalOf pThreeEvents * (1/10)) :=
  (C4_amended pThreeEvents).2.2 (by simp [pThreeEvents])

/-- Claim C8: with dissociation and independent rhythms true for both
inputs, urgency is monotone in the rate difference, in the order
ROUTINE < URGENT < EMERGENT. -/
theorem C8_urgency_monotone (p1 q1 p2 q2 : List WaveEvent)
    (hd1 : HeartBlockDetector.checkAVDissociation p1 q1 = true)
    (hi1 : HeartBlockDetector.assessIndependentRhythms p1 q1 = true)
    (hd2 : HeartBlockDetector.checkAVDissociation p2 q2 = true)
    (hi2 : HeartBlockDetector.assessIndependentRhythms p2 q2 = true)
    (hle : |HeartBlockDetector.calculateRate p1 - HeartBlockDetector.calculateRate q1| ≤
           |HeartBlockDetector.calculateRate p2 - HeartBlockDetector.calculateRate q2|) :
    urgencyRank (detectCompleteHeartBlock p1 q1).urgency ≤
      urgencyRank (detectCompleteHeartBlock p2 q2).urgency := by
  rw [detect_urgency_eq p1 q1 hd1 hi1, detect_urgency_eq p2 q2 hd2 hi2]
  split_ifs <;> simp [urgencyRank] <;> omega

/-- Claim C8 witness: the dissociated equal-rate pair (rate difference 0)
receives an urgency no higher than the Scenario B pair (rate difference
30). -/
theorem C8_witness :
    urgencyRank (detectCompleteHeartBlock pEqualRates qEqualRates).urgency ≤
      urgencyRank (detectCompleteHeartBlock pScenarioB qScenarioB).urgency :=
  C8_urgency_monotone pEqualRates qEqualRates pScenarioB qScenarioB
    (by norm_num [HeartBlockDetector.checkAVDissociation,
      HeartBlockDetector.avConsistencyRatio, HeartBlockDetector.prConsistent,
      pEqualRates, qEqualRates, evt, List.countP_cons, List.countP_nil])
    (by norm_num [HeartBlockDetector.assessIndependentRhythms,
      HeartBlockDetector.assessRhythmRegularity, varOf, meanIntervalOf, meanQ,
      listVariance, intervalsOf, pEqualRates, qEqualRates, evt])
    (by norm_num [HeartBlockDetector.checkAVDissociation,
      HeartBlockDetector.avConsistencyRatio, HeartBlockDetector.prConsistent,
      pScenarioB, qScenarioB, evt, List.countP_cons, List.countP_nil])
    (by norm_num [HeartBlockDetector.assessIndependentRhythms,
      HeartBlockDetector.assessRhythmRegularity, varOf, meanIntervalOf, meanQ,
      listVariance, intervalsOf, pScenarioB, qScenarioB, evt])
    (by norm_num [HeartBlockDetector.calculateRate, meanIntervalOf, meanQ,
      intervalsOf, jsRound, pEqualRates, qEqualRates, pScenarioB, qScenarioB, evt])


/-- Helper: the interval list of a series with at least two events unfolds
one step at a time. -/
theorem intervalsOf_cons_cons (a b : WaveEvent) (l : List WaveEvent) :
    intervalsOf (a :: b :: l) = (b.time - a.time) :: intervalsOf (b :: l) := by
  simp [intervalsOf]

/-- Helper: the interval list of `a :: l` has one interval per event of `l`. -/
theorem intervalsOf_length (a : WaveEvent) (l : List WaveEvent) :
    (intervalsOf (a :: l)).length = l.length := by
  simp [intervalsOf, List.length_zip]

/-- Helper: the sum of consecutive intervals telescopes to last minus first
event time. -/
theorem intervalsOf_sum (a : WaveEvent) (l : List WaveEvent) (h : l ≠ []) :
    (intervalsOf (a :: l)).sum = (l.getLast h).time - a.time := by
  induction l generalizing a with
  | nil => exact absurd rfl h
  | cons b t ih =>
    cases t with
    | nil => simp [intervalsOf]
    | cons c t' =>
      rw [intervalsOf_cons_cons, List.sum_cons, ih b (by simp),
        show (b :: c :: t').getLast h = (c :: t').getLast (List.cons_ne_nil c t') from rfl]
      ring

/-- Claim C5 counterexample: `calculateRate` does not sort, so the computed
rate is not invariant under permutation of the event list: reordering three
events changes the rate from 120 to 240 bpm. -/
theorem C5_counterexample :
    List.Perm pUnsorted pSorted ∧
    HeartBlockDetector.calculateRate pUnsorted ≠
      HeartBlockDetector.calculateRate pSorted := by
  constructor
  · exact List.Perm.cons (evt 0) (List.Perm.swap (evt 500) (evt 1000) [])
  · norm_num [HeartBlockDetector.calculateRate, meanIntervalOf, meanQ,
      intervalsOf, jsRound, pUnsorted, pSorted, evt]

/-- Claim C5 amended: the rate computation takes consecutive intervals in
the order the list is given (no sorting); the mean interval telescopes, so
for a series of at least two events the rate is
`round(60000 * (n - 1) / (lastTime - firstTime))` — it depends only on the
first event, the last event and the length, and is therefore not invariant
under permutations that change the first or last element. -/
theorem C5_amended (a : WaveEvent) (l : List WaveEvent) (h : l ≠ []) :
    HeartBlockDetector.calculateRate (a :: l) =
      jsRound (60000 * (l.length : ℚ) / ((l.getLast h).time - a.time)) := by
  unfold HeartBlockDetector.calculateRate
  rw [if_neg (by have := List.length_pos.mpr h; simp; omega)]
  unfold meanIntervalOf meanQ
  rw [intervalsOf_sum a l h, intervalsOf_length, div_div_eq_mul_div]

/-- Claim C5 amended witness: on the sorted three-event series the closed
form gives `round(60000 * 2 / 1000) = 120`. -/
theorem C5_witness : HeartBlockDetector.calculateRate pSorted = 120 := by
  have := C5_amended (evt 0) [evt 500, evt 1000] (by simp)
  rw [show pSorted = evt 0 :: [evt 500, evt 1000] from rfl, this]
  norm_num [evt, jsRound, List.getLast]


/-- Helper: counting over the zipped lists equals counting over the index
range `[0, min(len, len))`, pairing i-th with i-th. -/
theorem countP_zip_eq_countP_range (f : WaveEvent × WaveEvent → Bool) :
    ∀ (p q : List WaveEvent),
      (p.zip q).countP f =
        (List.range (min p.length q.length)).countP
          (fun i => f (p.getD i wdef, q.getD i wdef)) := by
  intro p
  induction p with
  | nil => intro q; simp
  | cons a p ih =>
    intro q
    cases q with
    | nil => simp
    | cons b q =>
      simp only [List.zip_cons_cons, List.countP_cons, List.length_cons,
        Nat.succ_min_succ, List.range_succ_eq_map, List.countP_map,
        Function.comp, List.getD_cons_succ, List.getD_cons_zero, ih q]
      rfl

/-- Claim C2: for non-empty series, the ratio the detector compares against
0.7 pairs the i-th P event with the i-th QRS event for every index below
`min(len(P), len(QRS))`, counts a pair consistent exactly when
`120 < QRS[i].time - P[i].time < 300` (strict on both sides), divides by
`min(len(P), len(QRS))`, and AV dissociation holds exactly when that ratio
is strictly below 0.7. -/
theorem C2_av_consistency (p q : List WaveEvent) (hp : p ≠ []) (hq : q ≠ []) :
    HeartBlockDetector.avConsistencyRatio p q =
      (specConsistentCount p q : ℚ) / ((min p.length q.length : ℕ) : ℚ) ∧
    (HeartBlockDetector.checkAVDissociation p q = true ↔
      HeartBlockDetector.avConsistencyRatio p q < 7/10) := by
  constructor
  · unfold HeartBlockDetector.avConsistencyRatio specConsistentCount
    rw [countP_zip_eq_countP_range HeartBlockDetector.prConsistent p q]
    rfl
  · have hmin : ¬ min p.length q.length = 0 := by
      simp [Nat.min_eq_zero_iff, List.length_eq_zero, hp, hq]
    unfold HeartBlockDetector.checkAVDissociation
    rw [if_neg hmin]
    exact decide_eq_true_iff

/-- Claim C2 witness: on the Scenario B series, dissociation is equivalent
to the ratio test, and the ratio is the index-paired count divided by the
minimum length. -/
theorem C2_witness :
    HeartBlockDetector.avConsistencyRatio pScenarioB qScenarioB =
      (specConsistentCount pScenarioB qScenarioB : ℚ) /
        ((min pScenarioB.length qScenarioB.length : ℕ) : ℚ) ∧
    (HeartBlockDetector.checkAVDissociation pScenarioB qScenarioB = true ↔
      HeartBlockDetector.avConsistencyRatio pScenarioB qScenarioB < 7/10) :=
  C2_av_consistency pScenarioB qScenarioB (by simp [pScenarioB]) (by simp [qScenarioB])


/-- Claim C7 counterexample: the spec's nullish (`??`) reading of
`hasSharpOnset` is false for a QRS-labelled event with a present-but-zero
onset slope and a 90 ms duration, so the claim demands a reclassification
finding there; the source's `||`-defaulting replaces the falsy `0` by `0.6`,
judges the onset sharp, and emits no correction. -/
theorem C7_counterexample :
    qrsZeroSlope.type = "QRS" ∧
    specHasSharpOnset qrsZeroSlope = false ∧
    (validateQRSvsTWave [qrsZeroSlope]).corrections = [] := by
  refine ⟨rfl, by norm_num [specHasSharpOnset, qrsZeroSlope], ?_⟩
  norm_num [validateQRSvsTWave, componentCorrections, componentIssues,
    hasSharpOnset, isRoundedMorphology, jsOrQ, qrsZeroSlope,
    calculateMorphologyConfidence, componentScore]

/-- Claim C7 amended: with the source's falsy (`||`) defaulting — the
defaults 0.6 and 90 apply when the field is absent or equal to 0 — every
QRS-labelled component in the input for which `hasSharpOnset` is false
yields a correction suggesting reclassification as a T wave. -/
theorem C7_amended (components : List WaveEvent) (c : WaveEvent)
    (hc : c ∈ components) (ht : c.type = "QRS")
    (hs : hasSharpOnset c = false) :
    ∃ corr ∈ (validateQRSvsTWave components).corrections,
      corr.component = c ∧ corr.suggestion = "Reclassify as T wave" := by
  refine ⟨⟨c, "Reclassify as T wave", "Gradual onset, not sharp QRS pattern"⟩,
    ?_, rfl, rfl⟩
  simp only [validateQRSvsTWave, List.mem_flatMap]
  exact ⟨c, hc, by simp [componentCorrections, ht, hs]⟩

/-- Claim C7 amended witness: the Scenario C component (duration 180, onset
slope 0.2, peak sharpness 0.1, labelled QRS) produces a reclassify-as-T-wave
correction. -/
theorem C7_witness :
    ∃ corr ∈ (validateQRSvsTWave [qrsScenarioC]).corrections,
      corr.component = qrsScenarioC ∧ corr.suggestion = "Reclassify as T wave" :=
  C7_amended [qrsScenarioC] qrsScenarioC (by simp) rfl
    (by norm_num [hasSharpOnset, qrsScenarioC, jsOrQ])

/-- Helper: every per-component morphology score is 0.6 or 0.9. -/
theorem componentScore_cases (c : WaveEvent) :
    componentScore c = 6/10 ∨ componentScore c = 9/10 := by
  unfold componentScore
  split_ifs <;> simp

/-- Claim C10: the morphology confidence is 0.5 on the empty component list
and otherwise the arithmetic mean of per-component scores, each of which is
0.6 or 0.9; for every input it lies in the closed interval [0.5, 0.9]. -/
theorem C10_confidence_bounds (components : List WaveEvent) :
    calculateMorphologyConfidence [] = 1/2 ∧
    (∀ c ∈ components, componentScore c = 6/10 ∨ componentScore c = 9/10) ∧
    (components ≠ [] →
      calculateMorphologyConfidence components =
        (components.map componentScore).sum / (components.length : ℚ)) ∧
    1/2 ≤ calculateMorphologyConfidence components ∧
    calculateMorphologyConfidence components ≤ 9/10 := by
  have hnil : calculateMorphologyConfidence [] = 1/2 := by
    simp [calculateMorphologyConfidence]
  have hmean : components ≠ [] →
      calculateMorphologyConfidence components =
        (components.map componentScore).sum / (components.length : ℚ) := by
    intro hne
    unfold calculateMorphologyConfidence
    rw [if_neg (by simpa [List.length_eq_zero] using hne)]
  refine ⟨hnil, fun c _ => componentScore_cases c, hmean, ?_⟩
  rcases eq_or_ne components [] with rfl | hne
  · rw [hnil]; norm_num
  · have hlen : (0 : ℚ) < (components.length : ℚ) := by
      have := List.length_pos.mpr hne
      exact_mod_cast this
    have hlo : ∀ x ∈ components.map componentScore, (6/10 : ℚ) ≤ x := by
      intro x hx
      rcases List.mem_map.mp hx with ⟨c, _, rfl⟩
      rcases componentScore_cases c with h | h <;> norm_num [h]
    have hhi : ∀ x ∈ components.map componentScore, x ≤ (9/10 : ℚ) := by
      intro x hx
      rcases List.mem_map.mp hx with ⟨c, _, rfl⟩
      rcases componentScore_cases c with h | h <;> norm_num [h]
    have hsumlo := List.card_nsmul_le_sum (components.map componentScore) _ hlo
    have hsumhi := List.sum_le_card_nsmul (components.map componentScore) _ hhi
    rw [List.length_map, nsmul_eq_mul] at hsumlo hsumhi
    rw [hmean hne]
    constructor
    · rw [le_div_iff₀ hlen]
      calc (1/2 : ℚ) * (components.length : ℚ)
          ≤ (components.length : ℚ) * (6/10) := by nlinarith
        _ ≤ (components.map componentScore).sum := hsumlo
    · rw [div_le_iff₀ hlen]
      calc (components.map componentScore).sum
          ≤ (components.length : ℚ) * (9/10) := hsumhi
        _ = (9/10 : ℚ) * (components.length : ℚ) := by ring

/-- Claim C10 witness: instantiated at the one-element Scenario C list,
where the score of the lone component and the bounds evaluate concretely. -/
theorem C10_witness :
    calculateMorphologyConfidence [qrsScenarioC] =
      ([qrsScenarioC].map componentScore).sum / (([qrsScenarioC] : List WaveEvent).length : ℚ) :=
  (C10_confidence_bounds [qrsScenarioC]).2.2.1 (by simp)

end EKG
